import Mathlib

/-!
Shallow embedding of the payment-orchestration service in `src/ai/agent.py`
(Agent-Pay AI Agent Service, v4.11).

The embedding covers the invoice database (`INVOICE_DB`, persisted by
`save_database`), the pre-confirmation registry
(`shipping_confirmation_registry`), the solvency pre-check
(`check_backend_balance`), and the three orchestration operations
`create_payment_logic`, `process_invoice` and `trigger_payment`.

Remote calls to the Executor backend (`/api/check-balance`,
`/api/create-on-chain`, `/api/trigger-payment`) are modelled by oracle
parameters describing the outcome of each call; each operation additionally
emits a list of events recording the status writes it performs and the
remote trigger-payment calls it issues.  Python's falsy check
`if not invoice_id` is modelled by comparing with the empty string (a missing
`invoiceId` field and the empty string behave identically in the source).
Decimal amounts (Python floats built from the request strings) are modelled
as rationals.
-/

/-- Invoice lifecycle status.  The source stores the strings
`"Pending"`, `"MONITORING"`, `"EXECUTING"`, `"PAID"`. -/
inductive Status
  | pending
  | monitoring
  | executing
  | paid
deriving DecidableEq, Repr

/-- One invoice record, as built by `create_payment_logic` (lines 179-187). -/
structure Invoice where
  amount : ℚ
  recipientAddress : Option String
  condition : String
  status : Status
  transactionHash : Option String
  paidAt : Option String
  createdAt : String
deriving DecidableEq, Repr

/-- Request payload for `create_payment_logic`.  `amount`, `recipientAddress`
and `condition` may be absent (`payload.get`). -/
structure Payload where
  invoiceId : String
  amount : Option ℚ
  recipientAddress : Option String
  condition : Option String
deriving DecidableEq, Repr

/-- The invoice database: insertion-ordered map from id to record. -/
abbrev Database := List (String × Invoice)

/-- Whole service state: the in-memory `INVOICE_DB`, the JSON file written by
`save_database` (always the full map), and `shipping_confirmation_registry`. -/
structure AgentState where
  db : Database
  persisted : Database
  registry : List String
deriving DecidableEq, Repr

/-- Observable events of one operation: a write of a status value to an
invoice record, and the issuing of a remote `/api/trigger-payment` call. -/
inductive Event
  | statusWrite (id : String) (s : Status)
  | remoteTrigger (id : String)
deriving DecidableEq, Repr

/-- Outcome of the remote balance query (`requests.get` of
`/api/check-balance`): a 200 response carrying a balance, or any failure
(non-200 status or exception). -/
inductive BalOutcome
  | ok (b : ℚ)
  | bad
deriving DecidableEq, Repr

/-- Outcome of the remote `/api/create-on-chain` call: a 201 response, a
non-201 response whose error body is the given string, or a connection
exception with the given message. -/
inductive CreateOutcome
  | ok
  | err (backendError : String)
  | exc (msg : String)
deriving DecidableEq, Repr

/-- Outcome of the remote `/api/trigger-payment` call: a 200 response
carrying `transactionHash` and `paidAt`, a non-200 response, or a connection
exception with the given message. -/
inductive TrigOutcome
  | ok (tx : String) (paidAt : String)
  | err (body : String)
  | exc (msg : String)
deriving DecidableEq, Repr

/-- Response bodies of the three operations, mirroring the JSON bodies built
in the source. -/
inductive Body
  | errMissingId
  | errConflict (status : Status)
  | errInsufficientPre (balance : ℚ) (amount : ℚ)
  | createdOk (details : Invoice)
  | errExec (msg : String)
  | trigPaid
  | trigExecFailed (msg : String)
  | trigAwaitingInvoice
  | trigAlreadyPaid
  | trigInProgress
  | trigAwaitingMonitoring
  | monNotFound
  | monPreconfirmedPaid
  | monPreconfirmedFailed
  | monMonitoring
deriving DecidableEq, Repr

/-- Result of one operation: HTTP body and status code, the service state
after it, and the emitted events. -/
structure StepOut where
  body : Body
  code : Nat
  state : AgentState
  events : List Event
deriving DecidableEq, Repr

/-! ### Database primitives -/

/-- Lookup in the invoice database (`invoice_id in db` / `db.get`). -/
def dbLookup : Database → String → Option Invoice
  | [], _ => none
  | (k, v) :: rest, id => if k = id then some v else dbLookup rest id

/-- Update the record stored under `id` in place (`db[id]["..."] = ...`). -/
def dbMod : Database → String → (Invoice → Invoice) → Database
  | [], _, _ => []
  | (k, v) :: rest, id, f => (k, if k = id then f v else v) :: dbMod rest id f

/-- Remove the record stored under `id` (`del db[id]`). -/
def dbErase : Database → String → Database
  | [], _ => []
  | (k, v) :: rest, id => if k = id then dbErase rest id else (k, v) :: dbErase rest id

/-- Status of the record stored under `id`, if any
(`db.get(invoice_id, {}).get('status')`). -/
def statusOf (db : Database) (id : String) : Option Status :=
  (dbLookup db id).map Invoice.status

/-- Idempotent set insertion (`shipping_confirmation_registry.add`). -/
def radd (r : List String) (x : String) : List String :=
  if x ∈ r then r else r ++ [x]

/-! ### Substring search (Python's `"..." in s`) -/

/-- Whether the second character list is an initial segment of the first. -/
def chrsStart : List Char → List Char → Bool
  | _, [] => true
  | [], _ :: _ => false
  | a :: as, b :: bs => a = b && chrsStart as bs

/-- Whether the second character list occurs inside the first. -/
def chrsFind : List Char → List Char → Bool
  | [], n => n.isEmpty
  | h :: t, n => chrsStart (h :: t) n || chrsFind t n

/-- Python's substring test `needle in hay`. -/
def strContains (hay needle : String) : Bool :=
  chrsFind hay.data needle.data

/-! ### The operations of the orchestrator -/

/-- `check_backend_balance` (src/ai/agent.py lines 83-103): requires
`balance ≥ amount + 0.1`; any query failure is treated as not solvent with
balance reported as `0`. -/
def check_backend_balance (amountNeeded : ℚ) (r : BalOutcome) : Bool × ℚ :=
  match r with
  | .ok b => if b < amountNeeded + 1/10 then (false, b) else (true, b)
  | .bad => (false, 0)

/-- `trigger_payment` (src/ai/agent.py lines 262-304).  `tr` is the outcome
of the remote `/api/trigger-payment` call, consulted only if that call is
actually issued. -/
def trigger_payment (st : AgentState) (invoiceId : String) (tr : TrigOutcome) : StepOut :=
  if invoiceId = "" then
    ⟨.errMissingId, 400, st, []⟩
  else
    let st1 : AgentState := { st with registry := radd st.registry invoiceId }
    match statusOf st1.db invoiceId with
    | some .monitoring =>
      let db2 := dbMod st1.db invoiceId fun inv => { inv with status := .executing }
      let st2 : AgentState := { st1 with db := db2, persisted := db2 }
      match tr with
      | .ok tx t =>
        let db3 := dbMod db2 invoiceId fun inv =>
          { inv with status := .paid, paidAt := some t, transactionHash := some tx }
        ⟨.trigPaid, 200, { st2 with db := db3, persisted := db3 },
          [.statusWrite invoiceId .executing, .remoteTrigger invoiceId,
           .statusWrite invoiceId .paid]⟩
      | .err _ =>
        let db3 := dbMod db2 invoiceId fun inv => { inv with status := .monitoring }
        ⟨.trigExecFailed "Payment execution failed.", 500,
          { st2 with db := db3, persisted := db3 },
          [.statusWrite invoiceId .executing, .remoteTrigger invoiceId,
           .statusWrite invoiceId .monitoring]⟩
      | .exc m =>
        let db3 := dbMod db2 invoiceId fun inv => { inv with status := .monitoring }
        ⟨.trigExecFailed ("An unexpected error occurred: " ++ m), 500,
          { st2 with db := db3, persisted := db3 },
          [.statusWrite invoiceId .executing, .remoteTrigger invoiceId,
           .statusWrite invoiceId .monitoring]⟩
    | none => ⟨.trigAwaitingInvoice, 200, st1, []⟩
    | some .paid => ⟨.trigAlreadyPaid, 200, st1, []⟩
    | some .executing => ⟨.trigInProgress, 202, st1, []⟩
    | some .pending => ⟨.trigAwaitingMonitoring, 200, st1, []⟩

/-- The `Pending → MONITORING` step of `process_invoice` (lines 235-240),
returning the updated state and the emitted events. -/
def ensureMonitoring (st : AgentState) (invoiceId : String) : AgentState × List Event :=
  match statusOf st.db invoiceId with
  | some .pending =>
    let db2 := dbMod st.db invoiceId fun inv => { inv with status := .monitoring }
    ({ st with db := db2, persisted := db2 }, [.statusWrite invoiceId .monitoring])
  | _ => (st, [])

/-- `process_invoice` (src/ai/agent.py lines 224-253): begin monitoring, then
fire `trigger_payment` immediately when the id was pre-confirmed. -/
def process_invoice (st : AgentState) (invoiceId : String) (tr : TrigOutcome) : StepOut :=
  if invoiceId = "" then
    ⟨.errMissingId, 400, st, []⟩
  else
    match dbLookup st.db invoiceId with
    | none => ⟨.monNotFound, 404, st, []⟩
    | some _ =>
      let em := ensureMonitoring st invoiceId
      if invoiceId ∈ em.1.registry then
        let out := trigger_payment em.1 invoiceId tr
        if out.code = 200 then
          ⟨.monPreconfirmedPaid, 200, out.state, em.2 ++ out.events⟩
        else
          ⟨.monPreconfirmedFailed, 500, out.state, em.2 ++ out.events⟩
      else
        ⟨.monMonitoring, 200, em.1, em.2⟩

/-- `create_payment_logic` (src/ai/agent.py lines 159-216).  `bal` is the
outcome of the balance query, `cr` of the remote `/api/create-on-chain`
call, and `now` the creation timestamp (`datetime.now().isoformat()`). -/
def create_payment_logic (st : AgentState) (p : Payload) (bal : BalOutcome)
    (cr : CreateOutcome) (now : String) : StepOut :=
  if p.invoiceId = "" then
    ⟨.errMissingId, 400, st, []⟩
  else
    match dbLookup st.db p.invoiceId with
    | some inv => ⟨.errConflict inv.status, 409, st, []⟩
    | none =>
      let amount := p.amount.getD 1
      let chk := check_backend_balance amount bal
      if chk.1 = false then
        ⟨.errInsufficientPre chk.2 amount, 402, st, []⟩
      else
        let inv : Invoice :=
          { amount := amount
            recipientAddress := p.recipientAddress
            condition := p.condition.getD "goods_shipped"
            status := .pending
            transactionHash := none
            paidAt := none
            createdAt := now }
        let db1 := st.db ++ [(p.invoiceId, inv)]
        let st1 : AgentState := { st with db := db1, persisted := db1 }
        match cr with
        | .ok => ⟨.createdOk inv, 201, st1, [.statusWrite p.invoiceId .pending]⟩
        | .err be =>
          let msg :=
            if strContains be "INSUFFICIENT_BALANCE" then
              "INSUFFICIENT_FUNDS. Re-check: Wallet has only " ++ toString chk.2 ++ " USDC."
            else
              "ON_CHAIN_FAILURE: " ++ be
          let db2 := dbErase db1 p.invoiceId
          ⟨.errExec msg, 500, { st1 with db := db2, persisted := db2 },
            [.statusWrite p.invoiceId .pending]⟩
        | .exc m =>
          let db2 := dbErase db1 p.invoiceId
          ⟨.errExec ("Failed to connect to Backend Executor: " ++ m), 500,
            { st1 with db := db2, persisted := db2 },
            [.statusWrite p.invoiceId .pending]⟩

/-! ### Operation sequences -/

/-- One request to the service, with the oracle outcomes of the remote calls
it may issue. -/
inductive Op
  | create (p : Payload) (bal : BalOutcome) (cr : CreateOutcome) (now : String)
  | monitor (invoiceId : String) (tr : TrigOutcome)
  | signal (invoiceId : String) (tr : TrigOutcome)
deriving DecidableEq, Repr

/-- Dispatch one request. -/
def step (st : AgentState) : Op → StepOut
  | .create p bal cr now => create_payment_logic st p bal cr now
  | .monitor id tr => process_invoice st id tr
  | .signal id tr => trigger_payment st id tr

/-- Run a sequence of requests, collecting the final state and the full
event trace. -/
def run (st : AgentState) : List Op → AgentState × List Event
  | [] => (st, [])
  | op :: ops =>
    let o := step st op
    let rest := run o.state ops
    (rest.1, o.events ++ rest.2)

/-! ### Status-trace machinery for the state-machine invariant -/

/-- The status values written to `id` by an event list, in order. -/
def statusWrites (evs : List Event) (id : String) : List Status :=
  evs.filterMap fun e =>
    match e with
    | .statusWrite j s => if j = id then some s else none
    | .remoteTrigger _ => none

/-- The sequence of status values the record of `id` takes across one
operation: its status before the operation (when a record exists) followed by
every status written during the operation. -/
def stepStatusTrace (st : AgentState) (op : Op) (id : String) : List Status :=
  (match statusOf st.db id with
   | some s => [s]
   | none => []) ++ statusWrites (step st op).events id

/-- The allowed edges of the invoice state machine:
`PENDING → MONITORING → EXECUTING → PAID` plus the rollback edge
`EXECUTING → MONITORING`. -/
def edgeOK : Status → Status → Bool
  | .pending, .monitoring => true
  | .monitoring, .executing => true
  | .executing, .paid => true
  | .executing, .monitoring => true
  | _, _ => false

/-! ### Lemmas about the database primitives -/

theorem dbLookup_mod (db : Database) (id j : String) (f : Invoice → Invoice) :
    dbLookup (dbMod db id f) j =
      if j = id then (dbLookup db j).map f else dbLookup db j := by
  induction db with
  | nil => simp [dbMod, dbLookup]
  | cons e rest ih =>
    obtain ⟨k, v⟩ := e
    by_cases hk : k = id
    · subst hk
      by_cases hj : k = j
      · subst hj
        simp [dbMod, dbLookup]
      · have hj2 : ¬ j = k := fun h => hj h.symm
        simp [dbMod, dbLookup, hj, hj2, ih]
    · by_cases hj : k = j
      · subst hj
        simp [dbMod, dbLookup, hk]
      · simp [dbMod, dbLookup, hk, hj, ih]

theorem dbLookup_append (l1 l2 : Database) (id : String) :
    dbLookup (l1 ++ l2) id =
      match dbLookup l1 id with
      | some v => some v
      | none => dbLookup l2 id := by
  induction l1 with
  | nil => simp [dbLookup]
  | cons e rest ih =>
    obtain ⟨k, v⟩ := e
    by_cases hk : k = id <;> simp [dbLookup, hk, ih]

theorem dbLookup_erase (db : Database) (j id : String) :
    dbLookup (dbErase db j) id = if id = j then none else dbLookup db id := by
  induction db with
  | nil => simp [dbErase, dbLookup]
  | cons e rest ih =>
    obtain ⟨k, v⟩ := e
    by_cases hk : k = j
    · subst hk
      by_cases hi : id = k
      · subst hi
        simp [dbErase, dbLookup, ih]
      · have hi2 : ¬ k = id := fun h => hi h.symm
        simp [dbErase, dbLookup, hi, hi2, ih]
    · by_cases hi : k = id
      · subst hi
        have hi2 : ¬ k = j := hk
        simp [dbErase, dbLookup, hk, hi2]
      · simp [dbErase, dbLookup, hk, hi, ih]

theorem dbMod_of_none (db : Database) (id : String) (f : Invoice → Invoice)
    (h : dbLookup db id = none) : dbMod db id f = db := by
  induction db with
  | nil => rfl
  | cons e rest ih =>
    obtain ⟨k, v⟩ := e
    simp only [dbLookup] at h
    by_cases hk : k = id
    · simp [hk] at h
    · rw [if_neg hk] at h
      simp [dbMod, hk, ih h]

theorem dbErase_of_none (db : Database) (id : String)
    (h : dbLookup db id = none) : dbErase db id = db := by
  induction db with
  | nil => rfl
  | cons e rest ih =>
    obtain ⟨k, v⟩ := e
    simp only [dbLookup] at h
    by_cases hk : k = id
    · simp [hk] at h
    · rw [if_neg hk] at h
      simp [dbErase, hk, ih h]

theorem dbMod_append (l1 l2 : Database) (id : String) (f : Invoice → Invoice) :
    dbMod (l1 ++ l2) id f = dbMod l1 id f ++ dbMod l2 id f := by
  induction l1 with
  | nil => simp [dbMod]
  | cons e rest ih =>
    obtain ⟨k, v⟩ := e
    simp [dbMod, ih]

theorem dbErase_append (l1 l2 : Database) (id : String) :
    dbErase (l1 ++ l2) id = dbErase l1 id ++ dbErase l2 id := by
  induction l1 with
  | nil => simp [dbErase]
  | cons e rest ih =>
    obtain ⟨k, v⟩ := e
    by_cases hk : k = id <;> simp [dbErase, hk, ih]

theorem mem_radd (r : List String) (x y : String) :
    x ∈ radd r y ↔ x ∈ r ∨ x = y := by
  by_cases h : y ∈ r
  · simp only [radd, if_pos h]
    constructor
    · exact fun hx => Or.inl hx
    · rintro (hx | hx)
      · exact hx
      · exact hx ▸ h
  · simp [radd, h]

theorem radd_of_mem (r : List String) (y : String) (h : y ∈ r) :
    radd r y = r := by simp [radd, h]

theorem self_mem_radd (r : List String) (y : String) : y ∈ radd r y := by
  by_cases h : y ∈ r <;> simp [radd, h]

/-! ### Lemmas about substring search -/

theorem chrsStart_refl (l : List Char) : chrsStart l l = true := by
  induction l with
  | nil => rfl
  | cons c cs ih => simp [chrsStart, ih]

theorem chrsFind_append_self (l n : List Char) : chrsFind (l ++ n) n = true := by
  induction l with
  | nil =>
    cases n with
    | nil => rfl
    | cons c cs => simp [chrsFind, chrsStart_refl]
  | cons c cs ih => simp [chrsFind, ih]

/-- A string always contains its own suffix: used to show that the
`ON_CHAIN_FAILURE` message carries the upstream error text. -/
theorem strContains_append_self (a b : String) : strContains (a ++ b) b = true := by
  simp [strContains, String.data_append, chrsFind_append_self]

/-! ### Sample states used to instantiate the theorems -/

/-- A paid invoice record. -/
def invPaidEx : Invoice :=
  { amount := 1
    recipientAddress := some "0x57211cf52b7830f08588fea975ffccaed493eef3"
    condition := "goods_shipped"
    status := .paid
    transactionHash := some "0xdeadbeef"
    paidAt := some "2025-01-01T00:00:00"
    createdAt := "2025-01-01T00:00:00" }

/-- A monitoring invoice record. -/
def invMonEx : Invoice :=
  { invPaidEx with status := .monitoring, transactionHash := none, paidAt := none }

/-- An executing invoice record. -/
def invExecEx : Invoice :=
  { invPaidEx with status := .executing, transactionHash := none, paidAt := none }

/-- A pending invoice record. -/
def invPendEx : Invoice :=
  { invPaidEx with status := .pending, transactionHash := none, paidAt := none }

/-- The empty service state. -/
def stEmpty : AgentState := ⟨[], [], []⟩

/-- A state holding one paid invoice. -/
def stPaidEx : AgentState := ⟨[("INV-1", invPaidEx)], [("INV-1", invPaidEx)], []⟩

/-- A state holding one executing invoice. -/
def stExecEx : AgentState := ⟨[("INV-2", invExecEx)], [("INV-2", invExecEx)], []⟩

/-- A state holding one monitoring invoice. -/
def stMonEx : AgentState := ⟨[("INV-9", invMonEx)], [("INV-9", invMonEx)], ["INV-9"]⟩

/-- A sample creation payload. -/
def pEx : Payload := ⟨"INV-7", some 1, some "0xabc", none⟩

/-- A creation payload requesting amount 100. -/
def pEx100 : Payload := ⟨"INV-7", some 100, some "0xabc", none⟩

/-! ### C7: duplicate creation conflicts and mutates nothing -/

/-- C7: a `CreateInvoice` call on a (non-empty) id already present in the
store fails with HTTP 409, reports the existing record's status, and changes
no state at all. -/
theorem C7_duplicate_create_conflict (st : AgentState) (p : Payload)
    (bal : BalOutcome) (cr : CreateOutcome) (now : String) (inv : Invoice)
    (hid : p.invoiceId ≠ "")
    (h : dbLookup st.db p.invoiceId = some inv) :
    create_payment_logic st p bal cr now =
      ⟨.errConflict inv.status, 409, st, []⟩ := by
  simp [create_payment_logic, hid, h]

/-- Witness for C7 at a concrete duplicate id. -/
theorem C7_witness :
    ("INV-1" : String) ≠ "" ∧
    dbLookup stPaidEx.db "INV-1" = some invPaidEx ∧
    create_payment_logic stPaidEx ⟨"INV-1", none, none, none⟩ .bad .ok "T" =
      ⟨.errConflict invPaidEx.status, 409, stPaidEx, []⟩ :=
  ⟨by decide, by rfl,
    C7_duplicate_create_conflict stPaidEx ⟨"INV-1", none, none, none⟩ .bad .ok "T"
      invPaidEx (by decide) (by rfl)⟩

/-! ### C5: failed solvency pre-check rejects with 402 and creates nothing -/

/-- C5: on a fresh non-empty id, if the balance query fails or reports a
balance strictly below `amount + 0.1`, `CreateInvoice` fails with HTTP 402
reporting the observed balance (zero on query failure) and the requested
amount, and no state changes. -/
theorem C5_insufficient_funds_no_record (st : AgentState) (p : Payload)
    (bal : BalOutcome) (cr : CreateOutcome) (now : String)
    (hid : p.invoiceId ≠ "")
    (hfresh : dbLookup st.db p.invoiceId = none)
    (hin : bal = .bad ∨ ∃ b, bal = .ok b ∧ b < p.amount.getD 1 + 1/10) :
    create_payment_logic st p bal cr now =
      ⟨.errInsufficientPre (match bal with | .ok b => b | .bad => 0) (p.amount.getD 1),
        402, st, []⟩ := by
  rcases hin with h | ⟨b, hb, hlt⟩
  · subst h
    simp [create_payment_logic, hid, hfresh, check_backend_balance]
  · subst hb
    have hch : check_backend_balance (p.amount.getD 1) (.ok b) = (false, b) := by
      show (if b < p.amount.getD 1 + 1/10 then ((false : Bool), b) else ((true : Bool), b)) =
        (false, b)
      rw [if_pos hlt]
    simp [create_payment_logic, hid, hfresh, hch]

/-- Witness for C5: creating `INV-7` for amount 100 with balance 50. -/
theorem C5_witness :
    (pEx100.invoiceId ≠ "") ∧
    dbLookup stEmpty.db pEx100.invoiceId = none ∧
    ((50 : ℚ) < pEx100.amount.getD 1 + 1/10) ∧
    create_payment_logic stEmpty pEx100 (.ok 50) .ok "T" =
      ⟨.errInsufficientPre 50 100, 402, stEmpty, []⟩ := by
  refine ⟨by decide, by rfl, by norm_num [pEx100], ?_⟩
  have h := C5_insufficient_funds_no_record stEmpty pEx100 (.ok 50) .ok "T"
    (by decide) (by rfl) (Or.inr ⟨50, rfl, by norm_num [pEx100]⟩)
  simpa [pEx100] using h

/-! ### C6: an upstream insufficient-balance failure is reclassified in the
message only — the HTTP status is still 500, not 402 -/

/-- Counterexample to C6 as stated: a remote create failure whose error
matches the `INSUFFICIENT_BALANCE` marker is answered with HTTP 500, not with
the 402 the claim requires. -/
theorem C6_counterexample :
    strContains "INSUFFICIENT_BALANCE" "INSUFFICIENT_BALANCE" = true ∧
    (create_payment_logic stEmpty pEx (.ok 5) (.err "INSUFFICIENT_BALANCE") "T").code = 500 ∧
    ¬ (create_payment_logic stEmpty pEx (.ok 5) (.err "INSUFFICIENT_BALANCE") "T").code = 402 := by
  have hch : check_backend_balance (pEx.amount.getD 1) (.ok 5) = (true, 5) := by
    show (if (5 : ℚ) < pEx.amount.getD 1 + 1/10 then ((false : Bool), (5 : ℚ))
          else ((true : Bool), 5)) = (true, 5)
    rw [if_neg (by norm_num [pEx])]
  have hid : ¬ pEx.invoiceId = "" := by decide
  have hfresh : dbLookup stEmpty.db pEx.invoiceId = none := rfl
  have hmark : strContains "INSUFFICIENT_BALANCE" "INSUFFICIENT_BALANCE" = true := by decide
  refine ⟨hmark, ?_, ?_⟩ <;>
    simp [create_payment_logic, hid, hfresh, hch, hmark]

/-- C6 (amended): when the remote create call fails with a message containing
the `INSUFFICIENT_BALANCE` marker, `CreateInvoice` reclassifies the failure
as an `INSUFFICIENT_FUNDS` message reporting the pre-check balance, instead
of the generic `ON_CHAIN_FAILURE` message — but the HTTP status code is 500
in both cases, not 402. -/
theorem C6_upstream_insufficient_reclassified (st : AgentState) (p : Payload)
    (b : ℚ) (be : String) (now : String)
    (hid : p.invoiceId ≠ "")
    (hfresh : dbLookup st.db p.invoiceId = none)
    (hsolv : ¬ b < p.amount.getD 1 + 1/10)
    (hmark : strContains be "INSUFFICIENT_BALANCE" = true) :
    (create_payment_logic st p (.ok b) (.err be) now).body =
      .errExec ("INSUFFICIENT_FUNDS. Re-check: Wallet has only " ++ toString b ++ " USDC.") ∧
    (create_payment_logic st p (.ok b) (.err be) now).code = 500 := by
  have hch : check_backend_balance (p.amount.getD 1) (.ok b) = (true, b) := by
    show (if b < p.amount.getD 1 + 1/10 then ((false : Bool), b) else ((true : Bool), b)) =
      (true, b)
    rw [if_neg hsolv]
  constructor <;> simp [create_payment_logic, hid, hfresh, hch, hmark]

/-- Witness for the amended C6. -/
theorem C6_witness :
    (create_payment_logic stEmpty pEx (.ok 5) (.err "INSUFFICIENT_BALANCE") "T").body =
      .errExec ("INSUFFICIENT_FUNDS. Re-check: Wallet has only " ++ toString (5 : ℚ) ++ " USDC.") ∧
    (create_payment_logic stEmpty pEx (.ok 5) (.err "INSUFFICIENT_BALANCE") "T").code = 500 :=
  C6_upstream_insufficient_reclassified stEmpty pEx 5 "INSUFFICIENT_BALANCE" "T"
    (by decide) (by rfl) (by norm_num [pEx]) (by decide)

/-! ### C4: rollback on remote create failure -/

/-- Counterexample to C4 as stated: when the upstream error matches the
insufficient-balance marker, the reported error message is the reclassified
`INSUFFICIENT_FUNDS` text, which does not carry the upstream message. -/
theorem C4_counterexample :
    (create_payment_logic stEmpty pEx (.ok 5) (.err "INSUFFICIENT_BALANCE") "T").body =
      .errExec ("INSUFFICIENT_FUNDS. Re-check: Wallet has only " ++ toString (5 : ℚ) ++ " USDC.") ∧
    strContains ("INSUFFICIENT_FUNDS. Re-check: Wallet has only " ++ toString (5 : ℚ) ++ " USDC.")
      "INSUFFICIENT_BALANCE" = false := by
  have hch : check_backend_balance (pEx.amount.getD 1) (.ok 5) = (true, 5) := by
    show (if (5 : ℚ) < pEx.amount.getD 1 + 1/10 then ((false : Bool), (5 : ℚ))
          else ((true : Bool), 5)) = (true, 5)
    rw [if_neg (by norm_num [pEx])]
  have hid : ¬ pEx.invoiceId = "" := by decide
  have hfresh : dbLookup stEmpty.db pEx.invoiceId = none := rfl
  have hmark : strContains "INSUFFICIENT_BALANCE" "INSUFFICIENT_BALANCE" = true := by decide
  constructor
  · simp [create_payment_logic, hid, hfresh, hch, hmark]
  · decide

/-- C4 (amended): if `CreateInvoice` passes the duplicate and solvency checks
and the remote create call then fails (error response or connection
exception), the just-inserted record is deleted from the store and from
persisted state (so the id appears in no later listing), and the call fails
with HTTP 500; the error message carries the upstream message except when the
upstream error matches the insufficient-balance marker, in which case it is
the reclassified `INSUFFICIENT_FUNDS` message. -/
theorem C4_create_rollback (st : AgentState) (p : Payload) (b : ℚ)
    (cr : CreateOutcome) (now : String)
    (hid : p.invoiceId ≠ "")
    (hfresh : dbLookup st.db p.invoiceId = none)
    (hsolv : ¬ b < p.amount.getD 1 + 1/10)
    (hfail : cr ≠ .ok) :
    (create_payment_logic st p (.ok b) cr now).code = 500 ∧
    (create_payment_logic st p (.ok b) cr now).state.db = st.db ∧
    (create_payment_logic st p (.ok b) cr now).state.persisted = st.db ∧
    dbLookup (create_payment_logic st p (.ok b) cr now).state.db p.invoiceId = none ∧
    (∀ be, cr = .err be → ¬ strContains be "INSUFFICIENT_BALANCE" = true →
      (create_payment_logic st p (.ok b) cr now).body =
        .errExec ("ON_CHAIN_FAILURE: " ++ be) ∧
      strContains ("ON_CHAIN_FAILURE: " ++ be) be = true) ∧
    (∀ m, cr = .exc m →
      (create_payment_logic st p (.ok b) cr now).body =
        .errExec ("Failed to connect to Backend Executor: " ++ m) ∧
      strContains ("Failed to connect to Backend Executor: " ++ m) m = true) ∧
    (∀ be, cr = .err be → strContains be "INSUFFICIENT_BALANCE" = true →
      (create_payment_logic st p (.ok b) cr now).body =
        .errExec ("INSUFFICIENT_FUNDS. Re-check: Wallet has only " ++ toString b ++ " USDC.")) := by
  have hch : check_backend_balance (p.amount.getD 1) (.ok b) = (true, b) := by
    show (if b < p.amount.getD 1 + 1/10 then ((false : Bool), b) else ((true : Bool), b)) =
      (true, b)
    rw [if_neg hsolv]
  have herase : ∀ inv : Invoice,
      dbErase (st.db ++ [(p.invoiceId, inv)]) p.invoiceId = st.db := by
    intro inv
    rw [dbErase_append, dbErase_of_none st.db p.invoiceId hfresh]
    simp [dbErase]
  cases cr with
  | ok => exact absurd rfl hfail
  | err be =>
    by_cases hmark : strContains be "INSUFFICIENT_BALANCE" = true
    · refine ⟨?_, ?_, ?_, ?_, ?_, ?_, ?_⟩ <;>
        simp [create_payment_logic, hid, hfresh, hch, hmark, herase]
    · refine ⟨?_, ?_, ?_, ?_, ?_, ?_, ?_⟩ <;>
        simp [create_payment_logic, hid, hfresh, hch, hmark, herase,
          strContains_append_self]
  | exc m =>
    refine ⟨?_, ?_, ?_, ?_, ?_, ?_, ?_⟩ <;>
      simp [create_payment_logic, hid, hfresh, hch, herase, strContains_append_self]

/-- Witness for the amended C4: a concrete remote create failure. -/
theorem C4_witness :
    (create_payment_logic stEmpty pEx (.ok 5) (.err "node down") "T").code = 500 ∧
    (create_payment_logic stEmpty pEx (.ok 5) (.err "node down") "T").state.db = stEmpty.db ∧
    dbLookup (create_payment_logic stEmpty pEx (.ok 5) (.err "node down") "T").state.db
      pEx.invoiceId = none := by
  have h := C4_create_rollback stEmpty pEx 5 (.err "node down") "T"
    (by decide) (by rfl) (by norm_num [pEx]) (by simp)
  exact ⟨h.1, h.2.1, h.2.2.2.1⟩

/-! ### C8: triggering an already-paid invoice is idempotent -/

/-- C8: calling `Trigger` on an id whose invoice is `PAID` answers
"already paid" with HTTP 200, leaves the invoice database and the persisted
state untouched, and is a fixed point: repeating the call (with any remote
oracle) returns the identical response and the identical state, so any
number of repetitions behaves the same. -/
theorem C8_trigger_paid_idempotent (st : AgentState) (id : String)
    (tr : TrigOutcome) (inv : Invoice)
    (hid : id ≠ "")
    (h : dbLookup st.db id = some inv)
    (hp : inv.status = .paid) :
    (trigger_payment st id tr).body = .trigAlreadyPaid ∧
    (trigger_payment st id tr).code = 200 ∧
    (trigger_payment st id tr).state.db = st.db ∧
    (trigger_payment st id tr).state.persisted = st.persisted ∧
    (∀ tr2, trigger_payment (trigger_payment st id tr).state id tr2 =
      ⟨.trigAlreadyPaid, 200, (trigger_payment st id tr).state, []⟩) := by
  have hst : statusOf st.db id = some .paid := by simp [statusOf, h, hp]
  refine ⟨?_, ?_, ?_, ?_, ?_⟩
  · simp [trigger_payment, hid, hst]
  · simp [trigger_payment, hid, hst]
  · simp [trigger_payment, hid, hst]
  · simp [trigger_payment, hid, hst]
  · intro tr2
    have hfix : radd (radd st.registry id) id = radd st.registry id :=
      radd_of_mem _ _ (self_mem_radd st.registry id)
    simp [trigger_payment, hid, hst, hfix]

/-- Witness for C8 on a concrete paid invoice. -/
theorem C8_witness :
    (trigger_payment stPaidEx "INV-1" (.err "boom")).body = .trigAlreadyPaid ∧
    (trigger_payment stPaidEx "INV-1" (.err "boom")).code = 200 ∧
    (trigger_payment stPaidEx "INV-1" (.err "boom")).state.db = stPaidEx.db ∧
    (trigger_payment (trigger_payment stPaidEx "INV-1" (.err "boom")).state "INV-1" (.ok "h" "t")) =
      ⟨.trigAlreadyPaid, 200, (trigger_payment stPaidEx "INV-1" (.err "boom")).state, []⟩ := by
  have h := C8_trigger_paid_idempotent stPaidEx "INV-1" (.err "boom") invPaidEx
    (by decide) (by rfl) (by rfl)
  exact ⟨h.1, h.2.1, h.2.2.1, h.2.2.2.2 (.ok "h" "t")⟩

/-! ### C10: a signal without an id is rejected before any mutation -/

/-- `create_payment_logic` never changes the registry. -/
theorem create_registry_eq (st : AgentState) (p : Payload) (bal : BalOutcome)
    (cr : CreateOutcome) (now : String) :
    (create_payment_logic st p bal cr now).state.registry = st.registry := by
  unfold create_payment_logic
  dsimp only
  repeat' split
  all_goals rfl

/-- The registry after `trigger_payment`: unchanged when the id is missing,
otherwise the idempotent insertion of a non-empty id. -/
theorem trigger_registry_eq (st : AgentState) (id : String) (tr : TrigOutcome) :
    (trigger_payment st id tr).state.registry = st.registry ∨
    ((trigger_payment st id tr).state.registry = radd st.registry id ∧ id ≠ "") := by
  by_cases hid : id = ""
  · left
    simp [trigger_payment, hid]
  · right
    refine ⟨?_, hid⟩
    unfold trigger_payment
    rw [if_neg hid]
    dsimp only
    repeat' split
    all_goals rfl

/-- `ensureMonitoring` never changes the registry. -/
theorem ensure_registry_eq (st : AgentState) (id : String) :
    (ensureMonitoring st id).1.registry = st.registry := by
  unfold ensureMonitoring
  split <;> rfl

/-- The registry after `process_invoice`: unchanged, or the idempotent
insertion of a non-empty id. -/
theorem process_registry_eq (st : AgentState) (id : String) (tr : TrigOutcome) :
    (process_invoice st id tr).state.registry = st.registry ∨
    ((process_invoice st id tr).state.registry = radd st.registry id ∧ id ≠ "") := by
  by_cases hid : id = ""
  · left
    simp [process_invoice, hid]
  · unfold process_invoice
    rw [if_neg hid]
    dsimp only
    split
    · left
      rfl
    · by_cases hreg : id ∈ (ensureMonitoring st id).1.registry
      · rw [if_pos hreg]
        have htr := trigger_registry_eq (ensureMonitoring st id).1 id tr
        rw [ensure_registry_eq] at htr
        split
        · exact htr.imp (fun h => h) (fun h => ⟨h.1, hid⟩)
        · exact htr.imp (fun h => h) (fun h => ⟨h.1, hid⟩)
      · rw [if_neg hreg]
        left
        exact ensure_registry_eq st id

/-- No step ever inserts the empty string into the pre-confirmation
registry. -/
theorem step_registry_no_empty (st : AgentState) (op : Op)
    (h : "" ∉ st.registry) : "" ∉ (step st op).state.registry := by
  cases op with
  | create p bal cr now =>
    rw [step, create_registry_eq]
    exact h
  | monitor id tr =>
    rcases process_registry_eq st id tr with heq | ⟨heq, hid⟩
    · rw [step, heq]
      exact h
    · rw [step, heq, mem_radd]
      rintro (hin | hin)
      · exact h hin
      · exact hid hin.symm
  | signal id tr =>
    rcases trigger_registry_eq st id tr with heq | ⟨heq, hid⟩
    · rw [step, heq]
      exact h
    · rw [step, heq, mem_radd]
      rintro (hin | hin)
      · exact h hin
      · exact hid hin.symm

/-- C10: a condition signal without an invoice id (missing or empty) fails
with HTTP 400 and mutates nothing — neither the registry nor the store; and
across any run of operations the registry never acquires an empty id. -/
theorem C10_missing_id_rejected (st0 : AgentState) :
    (∀ st tr, trigger_payment st "" tr = ⟨.errMissingId, 400, st, []⟩) ∧
    (∀ ops, "" ∉ st0.registry → "" ∉ (run st0 ops).1.registry) := by
  constructor
  · intro st tr
    simp [trigger_payment]
  · intro ops
    induction ops generalizing st0 with
    | nil => exact fun h => h
    | cons op rest ih =>
      intro h
      exact ih _ (step_registry_no_empty st0 op h)

/-- Witness for C10 at a concrete state and run. -/
theorem C10_witness :
    trigger_payment stPaidEx "" (.ok "h" "t") = ⟨.errMissingId, 400, stPaidEx, []⟩ ∧
    ("" ∉ stPaidEx.registry ∧
      "" ∉ (run stPaidEx [.signal "INV-1" (.ok "h" "t")]).1.registry) :=
  ⟨(C10_missing_id_rejected stPaidEx).1 stPaidEx (.ok "h" "t"),
    by decide,
    (C10_missing_id_rejected stPaidEx).2 [.signal "INV-1" (.ok "h" "t")] (by decide)⟩

/-! ### C9: outcomes of a condition signal carrying an id -/

/-- Counterexample to C9 as stated: a signal for an invoice in `EXECUTING`
(with no failing remote call involved — no remote call is issued at all) is
answered with HTTP 202, not 200. -/
theorem C9_counterexample :
    statusOf stExecEx.db "INV-2" = some .executing ∧
    ¬ (trigger_payment stExecEx "INV-2" (.ok "h" "t")).code = 200 := by
  exact ⟨rfl, by decide⟩

/-- C9 (amended): a condition signal carrying a non-empty id, whose handling
does not involve a failing remote payment call, is answered with a success
status — 200 in every case except `EXECUTING`, which is answered 202 — with
a body reporting the outcome; in particular a signal for an id with no
invoice record gets 200 ("awaiting invoice creation"), never a 4xx. -/
theorem C9_signal_success_codes (st : AgentState) (id : String) (tr : TrigOutcome)
    (hid : id ≠ "")
    (hok : statusOf st.db id = some .monitoring → ∃ tx t, tr = .ok tx t) :
    ((trigger_payment st id tr).code = 200 ∨ (trigger_payment st id tr).code = 202) ∧
    (statusOf st.db id = none →
      (trigger_payment st id tr).code = 200 ∧
      (trigger_payment st id tr).body = .trigAwaitingInvoice) ∧
    (statusOf st.db id = some .pending →
      (trigger_payment st id tr).code = 200 ∧
      (trigger_payment st id tr).body = .trigAwaitingMonitoring) ∧
    (statusOf st.db id = some .paid →
      (trigger_payment st id tr).code = 200 ∧
      (trigger_payment st id tr).body = .trigAlreadyPaid) ∧
    (statusOf st.db id = some .executing →
      (trigger_payment st id tr).code = 202 ∧
      (trigger_payment st id tr).body = .trigInProgress) ∧
    (statusOf st.db id = some .monitoring →
      (trigger_payment st id tr).code = 200 ∧
      (trigger_payment st id tr).body = .trigPaid) := by
  cases hs : statusOf st.db id with
  | none =>
    refine ⟨Or.inl ?_, ?_, ?_, ?_, ?_, ?_⟩ <;>
      simp [trigger_payment, hid, hs]
  | some s =>
    cases s with
    | pending =>
      refine ⟨Or.inl ?_, ?_, ?_, ?_, ?_, ?_⟩ <;>
        simp [trigger_payment, hid, hs]
    | paid =>
      refine ⟨Or.inl ?_, ?_, ?_, ?_, ?_, ?_⟩ <;>
        simp [trigger_payment, hid, hs]
    | executing =>
      refine ⟨Or.inr ?_, ?_, ?_, ?_, ?_, ?_⟩ <;>
        simp [trigger_payment, hid, hs]
    | monitoring =>
      obtain ⟨tx, t, htr⟩ := hok hs
      subst htr
      refine ⟨Or.inl ?_, ?_, ?_, ?_, ?_, ?_⟩ <;>
        simp [trigger_payment, hid, hs]

/-- Witness for the amended C9: a signal for an already-paid invoice. -/
theorem C9_witness :
    (trigger_payment stPaidEx "INV-1" (.err "x")).code = 200 ∧
    (trigger_payment stPaidEx "INV-1" (.err "x")).body = .trigAlreadyPaid :=
  (C9_signal_success_codes stPaidEx "INV-1" (.err "x") (by decide)
    (fun hmon => absurd hmon (by decide))).2.2.2.1 rfl

/-! ### C1: only a Trigger observing MONITORING issues a remote payment call -/

/-- The remote trigger-payment call is issued by `trigger_payment` exactly
when the id is non-empty and the invoice is observed in `MONITORING`. -/
theorem trigger_remote_mem (st : AgentState) (id : String) (tr : TrigOutcome)
    (i : String) :
    Event.remoteTrigger i ∈ (trigger_payment st id tr).events ↔
      (i = id ∧ ¬ id = "" ∧ statusOf st.db id = some .monitoring) := by
  by_cases hid : id = ""
  · simp [trigger_payment, hid]
  · cases hs : statusOf st.db id with
    | none => simp [trigger_payment, hid, hs]
    | some s =>
      cases s with
      | monitoring => cases tr <;> simp [trigger_payment, hid, hs]
      | pending => simp [trigger_payment, hid, hs]
      | executing => simp [trigger_payment, hid, hs]
      | paid => simp [trigger_payment, hid, hs]

/-- A `trigger_payment` call that does not observe `MONITORING` leaves the
invoice database unchanged and emits no events. -/
theorem trigger_db_unchanged (st : AgentState) (id : String) (tr : TrigOutcome)
    (h : ¬ statusOf st.db id = some .monitoring) :
    (trigger_payment st id tr).state.db = st.db ∧
    (trigger_payment st id tr).events = [] := by
  by_cases hid : id = ""
  · simp [trigger_payment, hid]
  · cases hs : statusOf st.db id with
    | none => simp [trigger_payment, hid, hs]
    | some s =>
      cases s with
      | monitoring => exact absurd hs h
      | pending => simp [trigger_payment, hid, hs]
      | executing => simp [trigger_payment, hid, hs]
      | paid => simp [trigger_payment, hid, hs]

/-- `create_payment_logic` never issues a remote trigger-payment call. -/
theorem create_no_remote (st : AgentState) (p : Payload) (bal : BalOutcome)
    (cr : CreateOutcome) (now : String) (i : String) :
    Event.remoteTrigger i ∉ (create_payment_logic st p bal cr now).events := by
  unfold create_payment_logic
  dsimp only
  repeat' split
  all_goals simp

/-- `ensureMonitoring` never issues a remote trigger-payment call. -/
theorem ensure_no_remote (st : AgentState) (id : String) (i : String) :
    Event.remoteTrigger i ∉ (ensureMonitoring st id).2 := by
  unfold ensureMonitoring
  repeat' split
  all_goals simp

/-- A remote trigger-payment call issued inside `process_invoice` comes from
its internal `trigger_payment` call, which observes `MONITORING` in the
intermediate state. -/
theorem process_remote_mem (st : AgentState) (id : String) (tr : TrigOutcome)
    (i : String) :
    Event.remoteTrigger i ∈ (process_invoice st id tr).events →
      i = id ∧ statusOf (ensureMonitoring st id).1.db id = some .monitoring := by
  unfold process_invoice
  by_cases hid : id = ""
  · rw [if_pos hid]
    simp
  · rw [if_neg hid]
    dsimp only
    split
    · simp
    · by_cases hreg : id ∈ (ensureMonitoring st id).1.registry
      · rw [if_pos hreg]
        have hkey : Event.remoteTrigger i ∈ (ensureMonitoring st id).2 ++
            (trigger_payment (ensureMonitoring st id).1 id tr).events →
            i = id ∧ statusOf (ensureMonitoring st id).1.db id = some .monitoring := by
          intro hmem
          rw [List.mem_append] at hmem
          rcases hmem with hmem | hmem
          · exact absurd hmem (ensure_no_remote st id i)
          · have hm := (trigger_remote_mem (ensureMonitoring st id).1 id tr i).mp hmem
            exact ⟨hm.1, hm.2.2⟩
        split
        · exact hkey
        · exact hkey
      · rw [if_neg hreg]
        intro hmem
        exact absurd hmem (ensure_no_remote st id i)

/-- C1: across the operations of the service, a remote trigger-payment call
is issued exactly by a `Trigger` that observes the invoice in `MONITORING`
(for `BeginMonitoring`, by its internal `Trigger` call observing the
intermediate state): a `Trigger` observing any other situation issues no
remote call and leaves the invoice database untouched, and `CreateInvoice`
never issues one. -/
theorem C1_remote_only_from_monitoring :
    (∀ st id tr i, Event.remoteTrigger i ∈ (trigger_payment st id tr).events ↔
      (i = id ∧ ¬ id = "" ∧ statusOf st.db id = some .monitoring)) ∧
    (∀ st id tr, ¬ statusOf st.db id = some .monitoring →
      (trigger_payment st id tr).state.db = st.db ∧
      (trigger_payment st id tr).events = []) ∧
    (∀ st p bal cr now i,
      Event.remoteTrigger i ∉ (create_payment_logic st p bal cr now).events) ∧
    (∀ st id tr i, Event.remoteTrigger i ∈ (process_invoice st id tr).events →
      i = id ∧ statusOf (ensureMonitoring st id).1.db id = some .monitoring) :=
  ⟨trigger_remote_mem, trigger_db_unchanged, create_no_remote, process_remote_mem⟩

/-- Witness for C1: a non-monitoring trigger changes nothing and a
monitoring trigger issues the remote call. -/
theorem C1_witness :
    ((trigger_payment stPaidEx "INV-1" (.ok "h" "t")).state.db = stPaidEx.db ∧
      (trigger_payment stPaidEx "INV-1" (.ok "h" "t")).events = []) ∧
    Event.remoteTrigger "INV-9" ∈ (trigger_payment stMonEx "INV-9" (.ok "h" "t")).events :=
  ⟨C1_remote_only_from_monitoring.2.1 stPaidEx "INV-1" (.ok "h" "t") (by decide),
    (C1_remote_only_from_monitoring.1 stMonEx "INV-9" (.ok "h" "t") "INV-9").mpr
      ⟨rfl, by decide, by rfl⟩⟩

/-! ### C2: the status trace follows the forward state machine -/

/-- The events of one `trigger_payment` call: nothing, or the
`MONITORING → EXECUTING → {PAID | MONITORING}` write sequence around the
remote call. -/
theorem trigger_events_spec (st : AgentState) (sid : String) (tr : TrigOutcome) :
    (trigger_payment st sid tr).events = [] ∨
    (statusOf st.db sid = some .monitoring ∧
      ∃ x, (x = Status.paid ∨ x = Status.monitoring) ∧
        (trigger_payment st sid tr).events =
          [.statusWrite sid .executing, .remoteTrigger sid, .statusWrite sid x]) := by
  by_cases hid : sid = ""
  · left
    simp [trigger_payment, hid]
  · cases hs : statusOf st.db sid with
    | none =>
      left
      simp [trigger_payment, hid, hs]
    | some s =>
      cases s with
      | monitoring =>
        right
        refine ⟨rfl, ?_⟩
        cases tr with
        | ok tx t => exact ⟨.paid, Or.inl rfl, by simp [trigger_payment, hid, hs]⟩
        | err b => exact ⟨.monitoring, Or.inr rfl, by simp [trigger_payment, hid, hs]⟩
        | exc m => exact ⟨.monitoring, Or.inr rfl, by simp [trigger_payment, hid, hs]⟩
      | pending =>
        left
        simp [trigger_payment, hid, hs]
      | executing =>
        left
        simp [trigger_payment, hid, hs]
      | paid =>
        left
        simp [trigger_payment, hid, hs]

/-- The events of one `create_payment_logic` call: nothing, or a single
`PENDING` write to a fresh id. -/
theorem create_events_spec (st : AgentState) (p : Payload) (bal : BalOutcome)
    (cr : CreateOutcome) (now : String) :
    (create_payment_logic st p bal cr now).events = [] ∨
    (dbLookup st.db p.invoiceId = none ∧
      (create_payment_logic st p bal cr now).events =
        [.statusWrite p.invoiceId .pending]) := by
  unfold create_payment_logic
  dsimp only
  repeat' split
  all_goals first
    | (left; rfl)
    | (right; exact ⟨by assumption, rfl⟩)

/-- The events of one `process_invoice` call, in terms of the events of its
internal `trigger_payment` call. -/
theorem process_events_spec (st : AgentState) (mid : String) (tr : TrigOutcome) :
    (process_invoice st mid tr).events = [] ∨
    (process_invoice st mid tr).events = (trigger_payment st mid tr).events ∨
    (statusOf st.db mid = some .pending ∧
      ((process_invoice st mid tr).events = [.statusWrite mid .monitoring] ∨
       (process_invoice st mid tr).events =
         .statusWrite mid .monitoring ::
           (trigger_payment (ensureMonitoring st mid).1 mid tr).events)) := by
  by_cases hid : mid = ""
  · left
    simp [process_invoice, hid]
  · cases hl : dbLookup st.db mid with
    | none =>
      left
      simp [process_invoice, hid, hl]
    | some inv =>
      by_cases hp : statusOf st.db mid = some .pending
      · right; right
        refine ⟨hp, ?_⟩
        have hem2 : (ensureMonitoring st mid).2 = [.statusWrite mid .monitoring] := by
          unfold ensureMonitoring
          rw [hp]
        unfold process_invoice
        rw [if_neg hid]
        simp only [hl]
        by_cases hreg : mid ∈ (ensureMonitoring st mid).1.registry
        · right
          rw [if_pos hreg]
          split <;> (rw [hem2]; rfl)
        · left
          rw [if_neg hreg, hem2]
      · have hem : ensureMonitoring st mid = (st, []) := by
          unfold ensureMonitoring
          cases hso : statusOf st.db mid with
          | none => rfl
          | some s =>
            cases s with
            | pending => exact absurd hso hp
            | monitoring => rfl
            | executing => rfl
            | paid => rfl
        unfold process_invoice
        rw [if_neg hid]
        simp only [hl, hem]
        by_cases hreg : mid ∈ st.registry
        · right; left
          rw [if_pos hreg]
          split <;> simp
        · left
          rw [if_neg hreg]

/-- The status trace contributed by a `trigger_payment` call running on the
same state the initial status is read from is a chain of allowed edges. -/
theorem chain_trigger_self (st : AgentState) (sid : String) (tr : TrigOutcome)
    (id : String) :
    List.Chain' (fun a b => edgeOK a b = true)
      ((match statusOf st.db id with | some s => [s] | none => []) ++
        statusWrites (trigger_payment st sid tr).events id) := by
  rcases trigger_events_spec st sid tr with he | ⟨hst, x, hx, he⟩
  · rw [he]
    cases hs : statusOf st.db id with
    | none => simp [statusWrites]
    | some s => simp [statusWrites]
  · rw [he]
    by_cases hq : sid = id
    · subst hq
      rw [hst]
      rcases hx with hx | hx <;> subst hx <;>
        simp [statusWrites, List.chain'_cons, edgeOK]
    · cases hs : statusOf st.db id with
      | none => simp [statusWrites, hq]
      | some s => simp [statusWrites, hq]

/-- Per-step chain property for `create` operations. -/
theorem create_trace_chain (st : AgentState) (p : Payload) (bal : BalOutcome)
    (cr : CreateOutcome) (now : String) (id : String) :
    List.Chain' (fun a b => edgeOK a b = true)
      (stepStatusTrace st (.create p bal cr now) id) := by
  unfold stepStatusTrace step
  rcases create_events_spec st p bal cr now with he | ⟨hfresh, he⟩
  · rw [he]
    cases hs : statusOf st.db id with
    | none => simp [statusWrites]
    | some s => simp [statusWrites]
  · rw [he]
    by_cases hq : p.invoiceId = id
    · have h0 : statusOf st.db id = none := by
        rw [← hq]
        simp [statusOf, hfresh]
      rw [h0]
      simp [statusWrites, hq]
    · cases hs : statusOf st.db id with
      | none => simp [statusWrites, hq]
      | some s => simp [statusWrites, hq]

/-- Per-step chain property for `monitor` operations. -/
theorem monitor_trace_chain (st : AgentState) (mid : String) (tr : TrigOutcome)
    (id : String) :
    List.Chain' (fun a b => edgeOK a b = true)
      (stepStatusTrace st (.monitor mid tr) id) := by
  unfold stepStatusTrace step
  rcases process_events_spec st mid tr with he | he | ⟨hp, he | he⟩
  · rw [he]
    cases hs : statusOf st.db id with
    | none => simp [statusWrites]
    | some s => simp [statusWrites]
  · rw [he]
    exact chain_trigger_self st mid tr id
  · rw [he]
    by_cases hq : mid = id
    · subst hq
      rw [hp]
      simp [statusWrites, List.chain'_cons, edgeOK]
    · cases hs : statusOf st.db id with
      | none => simp [statusWrites, hq]
      | some s => simp [statusWrites, hq]
  · rw [he]
    by_cases hq : mid = id
    · subst hq
      rw [hp]
      rcases trigger_events_spec (ensureMonitoring st mid).1 mid tr with
        ht | ⟨hst2, x, hx, ht⟩
      · rw [ht]
        simp [statusWrites, List.chain'_cons, edgeOK]
      · rw [ht]
        rcases hx with hx | hx <;> subst hx <;>
          simp [statusWrites, List.chain'_cons, edgeOK]
    · rcases trigger_events_spec (ensureMonitoring st mid).1 mid tr with
        ht | ⟨hst2, x, hx, ht⟩ <;> rw [ht] <;>
        (cases hs : statusOf st.db id with
         | none => simp [statusWrites, hq]
         | some s => simp [statusWrites, hq])

/-- A `trigger_payment` call never mutates or deletes a paid record. -/
theorem trigger_preserves_paid (st : AgentState) (sid : String) (tr : TrigOutcome)
    (id : String) (inv : Invoice)
    (h : dbLookup st.db id = some inv) (hp : inv.status = .paid) :
    dbLookup (trigger_payment st sid tr).state.db id = some inv := by
  by_cases hsid : sid = ""
  · simp [trigger_payment, hsid, h]
  · cases hs : statusOf st.db sid with
    | none => simp [trigger_payment, hsid, hs, h]
    | some s =>
      cases s with
      | monitoring =>
        have hne : ¬ id = sid := by
          intro hq
          subst hq
          rw [statusOf, h] at hs
          simp [hp] at hs
        cases tr <;>
          simp [trigger_payment, hsid, hs, dbLookup_mod, hne, h]
      | pending => simp [trigger_payment, hsid, hs, h]
      | executing => simp [trigger_payment, hsid, hs, h]
      | paid => simp [trigger_payment, hsid, hs, h]

/-- A `create_payment_logic` call never mutates or deletes an existing
record. -/
theorem create_preserves_existing (st : AgentState) (p : Payload)
    (bal : BalOutcome) (cr : CreateOutcome) (now : String)
    (id : String) (inv : Invoice)
    (h : dbLookup st.db id = some inv) :
    dbLookup (create_payment_logic st p bal cr now).state.db id = some inv := by
  by_cases hid : p.invoiceId = ""
  · simp [create_payment_logic, hid, h]
  · cases hl : dbLookup st.db p.invoiceId with
    | some inv2 => simp [create_payment_logic, hid, hl, h]
    | none =>
      have hne : ¬ id = p.invoiceId := by
        intro hq
        subst hq
        rw [h] at hl
        cases hl
      by_cases hc : (check_backend_balance (p.amount.getD 1) bal).1 = false
      · simp [create_payment_logic, hid, hl, hc, h]
      · cases cr <;>
          simp [create_payment_logic, hid, hl, hc, dbLookup_append,
            dbLookup_erase, hne, h]

/-- A `process_invoice` call never mutates or deletes a paid record. -/
theorem process_preserves_paid (st : AgentState) (mid : String) (tr : TrigOutcome)
    (id : String) (inv : Invoice)
    (h : dbLookup st.db id = some inv) (hp : inv.status = .paid) :
    dbLookup (process_invoice st mid tr).state.db id = some inv := by
  by_cases hid : mid = ""
  · simp [process_invoice, hid, h]
  · cases hl : dbLookup st.db mid with
    | none => simp [process_invoice, hid, hl, h]
    | some inv2 =>
      have hens : dbLookup (ensureMonitoring st mid).1.db id = some inv := by
        unfold ensureMonitoring
        cases hso : statusOf st.db mid with
        | none => exact h
        | some s =>
          cases s with
          | pending =>
            have hne : ¬ id = mid := by
              intro hq
              subst hq
              rw [statusOf, h] at hso
              simp [hp] at hso
            simp [dbLookup_mod, hne, h]
          | monitoring => exact h
          | executing => exact h
          | paid => exact h
      have htrig := trigger_preserves_paid (ensureMonitoring st mid).1 mid tr id inv hens hp
      unfold process_invoice
      rw [if_neg hid]
      simp only [hl]
      by_cases hreg : mid ∈ (ensureMonitoring st mid).1.registry
      · rw [if_pos hreg]
        split
        · exact htrig
        · exact htrig
      · rw [if_neg hreg]
        exact hens

/-- No single operation mutates or deletes a paid record. -/
theorem step_preserves_paid (st : AgentState) (op : Op) (id : String)
    (inv : Invoice)
    (h : dbLookup st.db id = some inv) (hp : inv.status = .paid) :
    dbLookup (step st op).state.db id = some inv := by
  cases op with
  | create p bal cr now => exact create_preserves_existing st p bal cr now id inv h
  | monitor mid tr => exact process_preserves_paid st mid tr id inv h hp
  | signal sid tr => exact trigger_preserves_paid st sid tr id inv h hp

/-- No run of operations mutates or deletes a paid record. -/
theorem run_preserves_paid (st : AgentState) (ops : List Op) (id : String)
    (inv : Invoice)
    (h : dbLookup st.db id = some inv) (hp : inv.status = .paid) :
    dbLookup (run st ops).1.db id = some inv := by
  induction ops generalizing st with
  | nil => exact h
  | cons op rest ih => exact ih _ (step_preserves_paid st op id inv h hp)

/-- Per-step chain property for every operation. -/
theorem step_trace_chain (st : AgentState) (op : Op) (id : String) :
    List.Chain' (fun a b => edgeOK a b = true) (stepStatusTrace st op id) := by
  cases op with
  | create p bal cr now => exact create_trace_chain st p bal cr now id
  | monitor mid tr => exact monitor_trace_chain st mid tr id
  | signal sid tr =>
    unfold stepStatusTrace step
    exact chain_trigger_self st sid tr id

/-- C2: for every invoice id, the sequence of status values the record takes
across an operation — its status before the operation followed by every
status written during it — is a chain of the forward edges
`PENDING → MONITORING → EXECUTING → PAID` plus the rollback edge
`EXECUTING → MONITORING`; and once a record is `PAID`, no later run of
operations changes it in any way. -/
theorem C2_status_machine :
    (∀ st op id,
      List.Chain' (fun a b => edgeOK a b = true) (stepStatusTrace st op id)) ∧
    (∀ st ops id inv, dbLookup st.db id = some inv → inv.status = .paid →
      dbLookup (run st ops).1.db id = some inv) :=
  ⟨step_trace_chain, fun st ops id inv h hp => run_preserves_paid st ops id inv h hp⟩

/-- Witness for C2: a concrete trigger on a monitoring invoice, and paid
stability under a concrete run. -/
theorem C2_witness :
    List.Chain' (fun a b => edgeOK a b = true)
      (stepStatusTrace stMonEx (.signal "INV-9" (.ok "h" "t")) "INV-9") ∧
    (dbLookup stPaidEx.db "INV-1" = some invPaidEx ∧
      invPaidEx.status = .paid ∧
      dbLookup (run stPaidEx [.signal "INV-1" (.ok "h" "t"),
        .monitor "INV-1" (.err "x")]).1.db "INV-1" = some invPaidEx) :=
  ⟨C2_status_machine.1 stMonEx (.signal "INV-9" (.ok "h" "t")) "INV-9",
    rfl, rfl,
    C2_status_machine.2 stPaidEx [.signal "INV-1" (.ok "h" "t"),
      .monitor "INV-1" (.err "x")] "INV-1" invPaidEx rfl rfl⟩

/-! ### C3: signal-before-create and signal-after-monitor reach the same
final paid state -/

/-- C3: for a fresh, solvent, non-empty id not yet signalled, delivering the
condition signal before `CreateInvoice` and `BeginMonitoring` (the signal is
recorded in the registry and `BeginMonitoring` fires the payment itself)
produces exactly the same final state as delivering the signal after
monitoring began — the invoice ends `PAID` with `transactionHash` and
`paidAt` populated from the successful remote call. -/
theorem C3_order_independence (st : AgentState) (p : Payload) (b : ℚ)
    (trA trB : TrigOutcome) (tx t now : String)
    (hid : ¬ p.invoiceId = "")
    (hfresh : dbLookup st.db p.invoiceId = none)
    (hreg : p.invoiceId ∉ st.registry)
    (hsolv : ¬ b < p.amount.getD 1 + 1/10) :
    (run st [.signal p.invoiceId trA, .create p (.ok b) .ok now,
        .monitor p.invoiceId (.ok tx t)]).1 =
      ⟨st.db ++ [(p.invoiceId,
          ⟨p.amount.getD 1, p.recipientAddress, p.condition.getD "goods_shipped",
            .paid, some tx, some t, now⟩)],
        st.db ++ [(p.invoiceId,
          ⟨p.amount.getD 1, p.recipientAddress, p.condition.getD "goods_shipped",
            .paid, some tx, some t, now⟩)],
        st.registry ++ [p.invoiceId]⟩ ∧
    (run st [.create p (.ok b) .ok now, .monitor p.invoiceId trB,
        .signal p.invoiceId (.ok tx t)]).1 =
      ⟨st.db ++ [(p.invoiceId,
          ⟨p.amount.getD 1, p.recipientAddress, p.condition.getD "goods_shipped",
            .paid, some tx, some t, now⟩)],
        st.db ++ [(p.invoiceId,
          ⟨p.amount.getD 1, p.recipientAddress, p.condition.getD "goods_shipped",
            .paid, some tx, some t, now⟩)],
        st.registry ++ [p.invoiceId]⟩ ∧
    dbLookup (run st [.signal p.invoiceId trA, .create p (.ok b) .ok now,
        .monitor p.invoiceId (.ok tx t)]).1.db p.invoiceId =
      some ⟨p.amount.getD 1, p.recipientAddress, p.condition.getD "goods_shipped",
        .paid, some tx, some t, now⟩ := by
  have hch : check_backend_balance (p.amount.getD 1) (.ok b) = (true, b) := by
    show (if b < p.amount.getD 1 + 1/10 then ((false : Bool), b) else ((true : Bool), b)) =
      (true, b)
    rw [if_neg hsolv]
  have hmd : ∀ f, dbMod st.db p.invoiceId f = st.db :=
    fun f => dbMod_of_none st.db p.invoiceId f hfresh
  have hA1 : trigger_payment st p.invoiceId trA =
      ⟨.trigAwaitingInvoice, 200, ⟨st.db, st.persisted, st.registry ++ [p.invoiceId]⟩, []⟩ := by
    have hs0 : statusOf st.db p.invoiceId = none := by
      rw [statusOf, hfresh]
      rfl
    simp [trigger_payment, hid, hs0, radd, hreg]
  have hcreate : ∀ s2 : AgentState, s2.db = st.db →
      create_payment_logic s2 p (.ok b) .ok now =
        ⟨.createdOk ⟨p.amount.getD 1, p.recipientAddress,
            p.condition.getD "goods_shipped", .pending, none, none, now⟩, 201,
          ⟨st.db ++ [(p.invoiceId,
              ⟨p.amount.getD 1, p.recipientAddress, p.condition.getD "goods_shipped",
                .pending, none, none, now⟩)],
            st.db ++ [(p.invoiceId,
              ⟨p.amount.getD 1, p.recipientAddress, p.condition.getD "goods_shipped",
                .pending, none, none, now⟩)],
            s2.registry⟩,
          [.statusWrite p.invoiceId .pending]⟩ := by
    intro s2 hdb
    simp [create_payment_logic, hid, hdb, hfresh, hch]
  have hlook1 : dbLookup (st.db ++ [(p.invoiceId,
      (⟨p.amount.getD 1, p.recipientAddress, p.condition.getD "goods_shipped",
        .pending, none, none, now⟩ : Invoice))]) p.invoiceId =
      some ⟨p.amount.getD 1, p.recipientAddress, p.condition.getD "goods_shipped",
        .pending, none, none, now⟩ := by
    simp [dbLookup_append, hfresh, dbLookup]
  have hens : ∀ pers reg, ensureMonitoring ⟨st.db ++ [(p.invoiceId,
      ⟨p.amount.getD 1, p.recipientAddress, p.condition.getD "goods_shipped",
        .pending, none, none, now⟩)], pers, reg⟩ p.invoiceId =
      (⟨st.db ++ [(p.invoiceId,
          ⟨p.amount.getD 1, p.recipientAddress, p.condition.getD "goods_shipped",
            .monitoring, none, none, now⟩)],
        st.db ++ [(p.invoiceId,
          ⟨p.amount.getD 1, p.recipientAddress, p.condition.getD "goods_shipped",
            .monitoring, none, none, now⟩)],
        reg⟩, [.statusWrite p.invoiceId .monitoring]) := by
    intro pers reg
    have hsP : statusOf (st.db ++ [(p.invoiceId,
        (⟨p.amount.getD 1, p.recipientAddress, p.condition.getD "goods_shipped",
          .pending, none, none, now⟩ : Invoice))]) p.invoiceId = some .pending := by
      simp [statusOf, hlook1]
    unfold ensureMonitoring
    rw [hsP]
    simp [dbMod_append, hmd, dbMod]
  have htrig : ∀ pers reg, trigger_payment ⟨st.db ++ [(p.invoiceId,
      ⟨p.amount.getD 1, p.recipientAddress, p.condition.getD "goods_shipped",
        .monitoring, none, none, now⟩)], pers, reg⟩ p.invoiceId (.ok tx t) =
      ⟨.trigPaid, 200,
        ⟨st.db ++ [(p.invoiceId,
            ⟨p.amount.getD 1, p.recipientAddress, p.condition.getD "goods_shipped",
              .paid, some tx, some t, now⟩)],
          st.db ++ [(p.invoiceId,
            ⟨p.amount.getD 1, p.recipientAddress, p.condition.getD "goods_shipped",
              .paid, some tx, some t, now⟩)],
          radd reg p.invoiceId⟩,
        [.statusWrite p.invoiceId .executing, .remoteTrigger p.invoiceId,
          .statusWrite p.invoiceId .paid]⟩ := by
    intro pers reg
    have hsM : statusOf (st.db ++ [(p.invoiceId,
        (⟨p.amount.getD 1, p.recipientAddress, p.condition.getD "goods_shipped",
          .monitoring, none, none, now⟩ : Invoice))]) p.invoiceId = some .monitoring := by
      simp [statusOf, dbLookup_append, hfresh, dbLookup]
    simp [trigger_payment, hid, hsM, dbMod_append, hmd, dbMod]
  have hproc : ∀ pers reg, p.invoiceId ∈ reg →
      process_invoice ⟨st.db ++ [(p.invoiceId,
        ⟨p.amount.getD 1, p.recipientAddress, p.condition.getD "goods_shipped",
          .pending, none, none, now⟩)], pers, reg⟩ p.invoiceId (.ok tx t) =
      ⟨.monPreconfirmedPaid, 200,
        ⟨st.db ++ [(p.invoiceId,
            ⟨p.amount.getD 1, p.recipientAddress, p.condition.getD "goods_shipped",
              .paid, some tx, some t, now⟩)],
          st.db ++ [(p.invoiceId,
            ⟨p.amount.getD 1, p.recipientAddress, p.condition.getD "goods_shipped",
              .paid, some tx, some t, now⟩)],
          reg⟩,
        [.statusWrite p.invoiceId .monitoring, .statusWrite p.invoiceId .executing,
          .remoteTrigger p.invoiceId, .statusWrite p.invoiceId .paid]⟩ := by
    intro pers reg hm
    unfold process_invoice
    rw [if_neg hid]
    simp only [hlook1]
    rw [hens pers reg]
    dsimp only
    rw [if_pos hm, htrig (st.db ++ [(p.invoiceId,
      (⟨p.amount.getD 1, p.recipientAddress, p.condition.getD "goods_shipped",
        .monitoring, none, none, now⟩ : Invoice))]) reg, radd_of_mem reg p.invoiceId hm]
    simp
  have hmon : ∀ pers, process_invoice ⟨st.db ++ [(p.invoiceId,
      ⟨p.amount.getD 1, p.recipientAddress, p.condition.getD "goods_shipped",
        .pending, none, none, now⟩)], pers, st.registry⟩ p.invoiceId trB =
      ⟨.monMonitoring, 200,
        ⟨st.db ++ [(p.invoiceId,
            ⟨p.amount.getD 1, p.recipientAddress, p.condition.getD "goods_shipped",
              .monitoring, none, none, now⟩)],
          st.db ++ [(p.invoiceId,
            ⟨p.amount.getD 1, p.recipientAddress, p.condition.getD "goods_shipped",
              .monitoring, none, none, now⟩)],
          st.registry⟩,
        [.statusWrite p.invoiceId .monitoring]⟩ := by
    intro pers
    unfold process_invoice
    rw [if_neg hid]
    simp only [hlook1]
    rw [hens pers st.registry]
    dsimp only
    rw [if_neg hreg]
  have hmem1 : p.invoiceId ∈ st.registry ++ [p.invoiceId] := by simp
  have hraddB : radd st.registry p.invoiceId = st.registry ++ [p.invoiceId] := by
    simp [radd, hreg]
  have hrunA : (run st [.signal p.invoiceId trA, .create p (.ok b) .ok now,
      .monitor p.invoiceId (.ok tx t)]).1 =
      ⟨st.db ++ [(p.invoiceId,
          ⟨p.amount.getD 1, p.recipientAddress, p.condition.getD "goods_shipped",
            .paid, some tx, some t, now⟩)],
        st.db ++ [(p.invoiceId,
          ⟨p.amount.getD 1, p.recipientAddress, p.condition.getD "goods_shipped",
            .paid, some tx, some t, now⟩)],
        st.registry ++ [p.invoiceId]⟩ := by
    simp only [run, step]
    rw [hA1]
    dsimp only
    rw [hcreate ⟨st.db, st.persisted, st.registry ++ [p.invoiceId]⟩ rfl]
    dsimp only
    rw [hproc (st.db ++ [(p.invoiceId,
      (⟨p.amount.getD 1, p.recipientAddress, p.condition.getD "goods_shipped",
        .pending, none, none, now⟩ : Invoice))]) (st.registry ++ [p.invoiceId]) hmem1]
  have hrunB : (run st [.create p (.ok b) .ok now, .monitor p.invoiceId trB,
      .signal p.invoiceId (.ok tx t)]).1 =
      ⟨st.db ++ [(p.invoiceId,
          ⟨p.amount.getD 1, p.recipientAddress, p.condition.getD "goods_shipped",
            .paid, some tx, some t, now⟩)],
        st.db ++ [(p.invoiceId,
          ⟨p.amount.getD 1, p.recipientAddress, p.condition.getD "goods_shipped",
            .paid, some tx, some t, now⟩)],
        st.registry ++ [p.invoiceId]⟩ := by
    simp only [run, step]
    rw [hcreate st rfl]
    dsimp only
    rw [hmon (st.db ++ [(p.invoiceId,
      (⟨p.amount.getD 1, p.recipientAddress, p.condition.getD "goods_shipped",
        .pending, none, none, now⟩ : Invoice))])]
    dsimp only
    rw [htrig (st.db ++ [(p.invoiceId,
      (⟨p.amount.getD 1, p.recipientAddress, p.condition.getD "goods_shipped",
        .monitoring, none, none, now⟩ : Invoice))]) st.registry, hraddB]
  refine ⟨hrunA, hrunB, ?_⟩
  rw [hrunA]
  simp [dbLookup_append, hfresh, dbLookup]

/-- Witness for C3 with concrete values. -/
theorem C3_witness :
    (run stEmpty [.signal pEx.invoiceId (.err "early"), .create pEx (.ok 5) .ok "T",
        .monitor pEx.invoiceId (.ok "0xh" "P")]).1 =
      (run stEmpty [.create pEx (.ok 5) .ok "T", .monitor pEx.invoiceId (.exc "x"),
        .signal pEx.invoiceId (.ok "0xh" "P")]).1 ∧
    dbLookup (run stEmpty [.signal pEx.invoiceId (.err "early"), .create pEx (.ok 5) .ok "T",
        .monitor pEx.invoiceId (.ok "0xh" "P")]).1.db pEx.invoiceId =
      some ⟨1, some "0xabc", "goods_shipped", .paid, some "0xh", some "P", "T"⟩ := by
  have h := C3_order_independence stEmpty pEx 5 (.err "early") (.exc "x") "0xh" "P" "T"
    (by decide) (by rfl) (by simp [stEmpty]) (by norm_num [pEx])
  refine ⟨?_, ?_⟩
  · rw [h.1, h.2.1]
  · simpa [pEx] using h.2.2
